import Mathlib

/-!
Shallow embedding of the visual-globe repository: the proxy's GeoJSON
reshaping (`proxy.cjs`) and the client filter / display / animation engine
(`src/components/CrisisGlobe.jsx`).  Numbers are modelled as rationals,
epoch-millisecond timestamps as integers, and a JavaScript `null`
magnitude as `Option ℚ`; JavaScript relational operators coerce `null`
to the number `0`, which is modelled by `jsNum`.
-/

namespace VisualGlobe

/-- An earthquake record as emitted by the proxy (the `processed` object in
`proxy.cjs`): flat fields extracted from one GeoJSON feature and consumed
unchanged by the client.  `type'` stands for the source field `type`
(a reserved word in Lean). -/
structure Event where
  id : String
  lat : ℚ
  lng : ℚ
  depth : ℚ
  magnitude : Option ℚ
  place : String
  time : ℤ
  timeString : String
  title : String
  url : String
  tsunami : ℤ
  type' : String
  status : String
  updated : ℤ
deriving DecidableEq

/-- The six region tags of the client's `regions` table in
`CrisisGlobe.jsx`. -/
inductive Region where
  | all
  | pacificRing
  | americas
  | asiaPacific
  | europeAfrica
  | atlantic
deriving DecidableEq

/-- The client's `filters` state.  In the source, `startDate` and `endDate`
are strings where the empty string means unset and a set value is parsed
with `new Date(...)` before a numeric comparison; here they are modelled
as the parsed epoch-millisecond value, `none` for the empty string. -/
structure FilterState where
  minMagnitude : ℚ
  maxMagnitude : ℚ
  startDate : Option ℤ
  endDate : Option ℤ
  region : Region
  searchTerm : String

/-- JavaScript numeric coercion applied to a possibly-`null` magnitude:
relational operators evaluate `null` as `+0`. -/
def jsNum (m : Option ℚ) : ℚ :=
  m.getD 0

/-- `getMagnitudeColor` from `CrisisGlobe.jsx`: five-bucket step function
from magnitude to a colour string. -/
def getMagnitudeColor (magnitude : ℚ) : String :=
  if magnitude ≥ 7 then "#ff0000"
  else if magnitude ≥ 6 then "#ff4500"
  else if magnitude ≥ 5 then "#ff8c00"
  else if magnitude ≥ 4 then "#ffd700"
  else "#90ee90"

/-- `getMagnitudeSize` from `CrisisGlobe.jsx`: `Math.max(0.15, magnitude * 0.15)`. -/
def getMagnitudeSize (magnitude : ℚ) : ℚ :=
  max (15/100) (magnitude * (15/100))

/-- `isInRegion` from `CrisisGlobe.jsx`: bounding-interval membership test
for the selected region. -/
def isInRegion (eq : Event) (region : Region) : Bool :=
  if region = Region.all then true
  else
    match region with
    | Region.pacificRing =>
        (decide (eq.lng ≥ 120) && decide (eq.lng ≤ 180)) ||
        (decide (eq.lng ≥ -180) && decide (eq.lng ≤ -100)) ||
        (decide (eq.lat ≥ -60) && decide (eq.lat ≤ 70) &&
          (decide (eq.lng ≥ 120) || decide (eq.lng ≤ -100)))
    | Region.americas =>
        decide (eq.lng ≥ -180) && decide (eq.lng ≤ -30)
    | Region.asiaPacific =>
        decide (eq.lng ≥ 60) && decide (eq.lng ≤ 180) &&
        decide (eq.lat ≥ -50) && decide (eq.lat ≤ 70)
    | Region.europeAfrica =>
        decide (eq.lng ≥ -30) && decide (eq.lng ≤ 60)
    | Region.atlantic =>
        decide (eq.lng ≥ -60) && decide (eq.lng ≤ 20) &&
        decide (eq.lat ≥ -60) && decide (eq.lat ≤ 70)
    | Region.all => true

/-- Boolean test that `pat` occurs as a contiguous prefix of `l`
(character lists). -/
def isPrefixList : List Char → List Char → Bool
  | [], _ => true
  | _ :: _, [] => false
  | a :: as, b :: bs => a == b && isPrefixList as bs

/-- Boolean test that `pat` occurs as a contiguous sublist of the second
argument; models JavaScript `String.prototype.includes`. -/
def containsList (pat : List Char) : List Char → Bool
  | [] => isPrefixList pat []
  | c :: rest => isPrefixList pat (c :: rest) || containsList pat rest

/-- JavaScript `s.includes(pat)` on strings. -/
def strIncludes (s pat : String) : Bool :=
  containsList pat.data s.data

/-- The predicate body of `applyFilters` in `CrisisGlobe.jsx`, translated
clause by clause: each early `return false` becomes an `if … then false`. -/
def passesFilters (filters : FilterState) (eq : Event) : Bool :=
  if jsNum eq.magnitude < filters.minMagnitude ∨ jsNum eq.magnitude > filters.maxMagnitude then
    false
  else if (match filters.startDate with
           | some s => decide (eq.time < s)
           | none => false) then
    false
  else if (match filters.endDate with
           | some e => decide (eq.time > e)
           | none => false) then
    false
  else if !isInRegion eq filters.region then
    false
  else if filters.searchTerm != "" &&
          !strIncludes eq.place.toLower filters.searchTerm.toLower then
    false
  else
    true

/-- `applyFilters` from `CrisisGlobe.jsx`: keep the earthquakes that pass
all filter clauses, in source order. -/
def applyFilters (filters : FilterState) (earthquakes : List Event) : List Event :=
  earthquakes.filter (fun eq => passesFilters filters eq)

/-- Civil (proleptic Gregorian) date from a count of days since 1970-01-01,
the calendar used by JavaScript `Date`: returns `(year, month, day)`. -/
def civilFromDays (z₀ : ℤ) : ℤ × ℤ × ℤ :=
  let z := z₀ + 719468
  let era := z.fdiv 146097
  let doe := z - era * 146097
  let yoe := (doe - doe.fdiv 1460 + doe.fdiv 36524 - doe.fdiv 146096).fdiv 365
  let y := yoe + era * 400
  let doy := doe - (365 * yoe + yoe.fdiv 4 - yoe.fdiv 100)
  let mp := (5 * doy + 2).fdiv 153
  let d := doy - (153 * mp + 2).fdiv 5 + 1
  let m := mp + (if mp < 10 then 3 else -9)
  (y + (if m ≤ 2 then 1 else 0), m, d)

/-- Left-pad a (nonnegative) integer to two digits. -/
def pad2 (n : ℤ) : String :=
  if n < 10 then "0" ++ toString n else toString n

/-- Left-pad a (nonnegative) integer to three digits. -/
def pad3 (n : ℤ) : String :=
  if n < 10 then "00" ++ toString n
  else if n < 100 then "0" ++ toString n
  else toString n

/-- Left-pad a (nonnegative) integer to four digits. -/
def pad4 (n : ℤ) : String :=
  if n < 10 then "000" ++ toString n
  else if n < 100 then "00" ++ toString n
  else if n < 1000 then "0" ++ toString n
  else toString n

/-- JavaScript `new Date(ms).toISOString()`: the ISO-8601 UTC rendering
`YYYY-MM-DDTHH:MM:SS.mmmZ` of an epoch-millisecond timestamp. -/
def toIsoString (ms : ℤ) : String :=
  let days := ms.fdiv 86400000
  let msOfDay := ms.fmod 86400000
  let ymd := civilFromDays days
  let h := msOfDay.fdiv 3600000
  let mi := (msOfDay.fmod 3600000).fdiv 60000
  let s := (msOfDay.fmod 60000).fdiv 1000
  let milli := msOfDay.fmod 1000
  pad4 ymd.1 ++ "-" ++ pad2 ymd.2.1 ++ "-" ++ pad2 ymd.2.2 ++ "T" ++
    pad2 h ++ ":" ++ pad2 mi ++ ":" ++ pad2 s ++ "." ++ pad3 milli ++ "Z"

/-- The date part `YYYY-MM-DD` of the ISO rendering, i.e.
`new Date(ms).toISOString().split('T')[0]` in `proxy.cjs`. -/
def isoDateString (ms : ℤ) : String :=
  let ymd := civilFromDays (ms.fdiv 86400000)
  pad4 ymd.1 ++ "-" ++ pad2 ymd.2.1 ++ "-" ++ pad2 ymd.2.2

/-- The `properties` bag of one upstream GeoJSON feature; `mag` may be
`null` upstream, hence `Option`.  `type'` stands for the source field
`type`. -/
structure FeatureProps where
  mag : Option ℚ
  place : String
  time : ℤ
  title : String
  url : String
  tsunami : ℤ
  type' : String
  status : String
  updated : ℤ

/-- One upstream GeoJSON feature: identifier, point geometry coordinates
`[lng, lat, depth]`, and properties. -/
structure Feature where
  id : String
  coordinates : List ℚ
  properties : FeatureProps

/-- The per-feature mapping in `proxy.cjs` (`data.features.map(...)`).
In the source, `coords[i]` on a well-formed feature always exists; list
access is modelled with default `0`, never exercised on length-3
coordinate lists. -/
def processFeature (earthquake : Feature) : Event :=
  let coords := earthquake.coordinates
  let props := earthquake.properties
  { id := earthquake.id
    lat := coords.getD 1 0
    lng := coords.getD 0 0
    depth := coords.getD 2 0
    magnitude := props.mag
    place := props.place
    time := props.time
    timeString := toIsoString props.time
    title := props.title
    url := props.url
    tsunami := props.tsunami
    type' := props.type'
    status := props.status
    updated := props.updated }

/-- `processedData` in `proxy.cjs`: `data.features ? data.features.map(...) : []`;
an absent feature list yields the empty result. -/
def processFeatures (features : Option (List Feature)) : List Event :=
  match features with
  | some fs => fs.map processFeature
  | none => []

/-- Upstream response metadata (`data.metadata`), all fields optional. -/
structure UpstreamMeta where
  generated : Option ℤ
  url : Option String
  title : Option String
  count : Option ℤ

/-- Parsed upstream response body: optional feature list and metadata. -/
structure UpstreamBody where
  features : Option (List Feature)
  metadata : Option UpstreamMeta

/-- The upstream HTTP response seen by the proxy: status code plus parsed
body. -/
structure UpstreamResponse where
  status : ℕ
  body : UpstreamBody

/-- `response.ok` of the Fetch API: status in the inclusive range 200-299. -/
def responseOk (response : UpstreamResponse) : Bool :=
  decide (200 ≤ response.status) && decide (response.status ≤ 299)

/-- What the proxy sends back for one request: either the JSON success
payload (count, earthquake list, flattened optional metadata) or the
error payload produced by the catch handler (`res.status(500).json(...)`). -/
inductive ProxyResult where
  | ok (count : ℕ) (earthquakes : List Event) (generated : Option ℤ)
      (url : Option String) (title : Option String) (mcount : Option ℤ)
  | err (httpStatus : ℕ) (error : String) (details : String)
deriving DecidableEq

/-- The response-handling tail of the `/earthquakes` handler in
`proxy.cjs`: a non-ok upstream status throws
`USGS API responded with status N`, caught by the handler's `catch`, which
answers HTTP 500 with the fixed error string and the thrown message as
details; an ok status maps the features and answers the success payload. -/
def handleRequest (response : UpstreamResponse) : ProxyResult :=
  if responseOk response then
    let processedData := processFeatures response.body.features
    ProxyResult.ok processedData.length processedData
      (response.body.metadata.bind (fun m => m.generated))
      (response.body.metadata.bind (fun m => m.url))
      (response.body.metadata.bind (fun m => m.title))
      (response.body.metadata.bind (fun m => m.count))
  else
    ProxyResult.err 500 "Failed to fetch earthquake data"
      ("USGS API responded with status " ++ toString response.status)

/-- Incoming query of the `/earthquakes` route: each parameter optional,
`none` when absent from the request URL. -/
structure ReqQuery where
  minmagnitude : Option String
  limit : Option String
  format : Option String
  starttime : Option String
  endtime : Option String

/-- The `URLSearchParams` construction of `proxy.cjs`, as the ordered list
of appended `(key, value)` pairs.  `nowMs` is the current time in epoch
milliseconds; the source's `thirtyDaysAgo` (a `Date` shifted back 30 days
with `setDate`, then `toISOString().split('T')[0]`) is thirty 24-hour days
before now, rendered as `YYYY-MM-DD`. -/
def buildParams (q : ReqQuery) (nowMs : ℤ) : List (String × String) :=
  let minmagnitude := q.minmagnitude.getD "4.5"
  let limit := q.limit.getD "1000"
  let format := q.format.getD "geojson"
  [("format", format), ("minmagnitude", minmagnitude), ("limit", limit),
   ("orderby", "time")] ++
  [("starttime",
    match q.starttime with
    | some s => s
    | none => isoDateString (nowMs - 30 * 86400000))] ++
  (match q.endtime with
   | some e => [("endtime", e)]
   | none => [])

/-- The client's animation state: `isAnimating` flag and the reveal index
(`animationIndex`). -/
structure AnimState where
  isAnimating : Bool
  animationIndex : ℕ
deriving DecidableEq

/-- The three animation transitions of `CrisisGlobe.jsx`: the start
button, one interval tick, and the stop button. -/
inductive AnimAction where
  | start
  | tick
  | stop

/-- One transition of the animation state machine over a filtered list of
length `len`: `start` is `startAnimation` (no-op on an empty filtered
list, else `Running(0)`); `tick` is the `animate` interval callback
(`next >= length` resets to stopped at 0, else increments); `stop` is
`stopAnimation`. -/
def animStep (len : ℕ) (s : AnimState) : AnimAction → AnimState
  | AnimAction.start => if len = 0 then s else ⟨true, 0⟩
  | AnimAction.tick =>
      let next := s.animationIndex + 1
      if next ≥ len then ⟨false, 0⟩ else ⟨s.isAnimating, next⟩
  | AnimAction.stop => ⟨false, 0⟩

/-- The initial animation state of the component: not animating, index 0. -/
def animInit : AnimState := ⟨false, 0⟩

/-- Run a sequence of animation transitions from the initial state. -/
def runAnim (len : ℕ) (acts : List AnimAction) : AnimState :=
  acts.foldl (animStep len) animInit

/-- `displayEarthquakes` in `CrisisGlobe.jsx`: the filtered list's prefix
of length `animationIndex` while animating, else the whole filtered
list. -/
def displayEarthquakes (filtered : List Event) (s : AnimState) : List Event :=
  if s.isAnimating then filtered.take s.animationIndex else filtered

/-! Spec-side formulations of the five filter predicates of §4.2, stated
independently so that `applyFilters` can be compared against their
conjunction. -/

/-- Spec predicate 1: `minMagnitude ≤ magnitude ≤ maxMagnitude`
(a `null` magnitude compares as the coerced number `0`). -/
def magnitudeOk (filters : FilterState) (eq : Event) : Bool :=
  decide (filters.minMagnitude ≤ jsNum eq.magnitude) &&
  decide (jsNum eq.magnitude ≤ filters.maxMagnitude)

/-- Spec predicate 2: if `startDate` is set, `time ≥ startDate`. -/
def startDateOk (filters : FilterState) (eq : Event) : Bool :=
  match filters.startDate with
  | some s => decide (s ≤ eq.time)
  | none => true

/-- Spec predicate 3: if `endDate` is set, `time ≤ endDate`. -/
def endDateOk (filters : FilterState) (eq : Event) : Bool :=
  match filters.endDate with
  | some e => decide (eq.time ≤ e)
  | none => true

/-- Spec predicate 4: region membership. -/
def regionOk (filters : FilterState) (eq : Event) : Bool :=
  isInRegion eq filters.region

/-- Spec predicate 5: if `searchTerm` is non-empty, case-insensitive
substring match against `place`. -/
def searchOk (filters : FilterState) (eq : Event) : Bool :=
  filters.searchTerm == "" ||
  strIncludes eq.place.toLower filters.searchTerm.toLower

/-- The default client `FilterState` (the `useState` initialiser in
`CrisisGlobe.jsx`): magnitude 4.5-10.0, no dates, region `all`, empty
search. -/
def defaultFilters : FilterState :=
  { minMagnitude := 45/10
    maxMagnitude := 10
    startDate := none
    endDate := none
    region := Region.all
    searchTerm := "" }

/-- An event with the given coordinates, all other fields defaulted; used
to probe the region predicates. -/
def mkPoint (lat lng : ℚ) : Event :=
  { id := ""
    lat := lat
    lng := lng
    depth := 0
    magnitude := none
    place := ""
    time := 0
    timeString := ""
    title := ""
    url := ""
    tsunami := 0
    type' := ""
    status := ""
    updated := 0 }

/-- Severity rank of the five colour buckets, for stating that the colour
step function is monotone. -/
def colorRank (c : String) : ℕ :=
  match c with
  | "#ffd700" => 1
  | "#ff8c00" => 2
  | "#ff4500" => 3
  | "#ff0000" => 4
  | _ => 0

/-- The request query with every parameter absent. -/
def emptyQuery : ReqQuery :=
  { minmagnitude := none, limit := none, format := none,
    starttime := none, endtime := none }

/-- The spec's worked example feature: Tokyo, coordinates
`[139.7, 35.7, 10]`, magnitude 6.2, time 1700000000000. -/
def tokyoFeature : Feature :=
  { id := "us7000tokyo"
    coordinates := [1397/10, 357/10, 10]
    properties :=
      { mag := some (62/10)
        place := "Tokyo, Japan"
        time := 1700000000000
        title := "M 6.2 - Tokyo, Japan"
        url := "https://earthquake.example/us7000tokyo"
        tsunami := 0
        type' := "earthquake"
        status := "reviewed"
        updated := 1700000100000 } }

/-- An upstream response with HTTP status 503 and an empty body. -/
def failing503 : UpstreamResponse :=
  { status := 503, body := { features := none, metadata := none } }

/-- The `applyFilters` predicate equals the conjunction of the five
spec-side predicates, pointwise. -/
lemma passesFilters_eq_conj (filters : FilterState) (eq : Event) :
    passesFilters filters eq =
      (magnitudeOk filters eq && startDateOk filters eq && endDateOk filters eq &&
        regionOk filters eq && searchOk filters eq) := by
  rcases filters with ⟨minM, maxM, sd, ed, reg, term⟩
  unfold passesFilters magnitudeOk startDateOk endDateOk regionOk searchOk
  dsimp only
  by_cases h1 : jsNum eq.magnitude < minM ∨ jsNum eq.magnitude > maxM
  · rw [if_pos h1]
    rcases h1 with h | h
    · rw [decide_eq_false (not_le.mpr h)]
      simp
    · rw [decide_eq_false (not_le.mpr h)]
      simp
  · rw [if_neg h1]
    push_neg at h1
    rw [decide_eq_true h1.1, decide_eq_true h1.2]
    simp only [Bool.and_self, Bool.true_and]
    have hsd : ∀ r : Bool,
        (if (match sd with
             | some s => decide (eq.time < s)
             | none => false) = true then false else r) =
          ((match sd with
            | some s => decide (s ≤ eq.time)
            | none => true) && r) := by
      intro r
      cases sd with
      | none => simp
      | some s =>
        by_cases h2 : eq.time < s
        · rw [if_pos (by simpa using h2)]
          simp [not_le.mpr h2]
        · rw [if_neg (by simpa using h2)]
          simp [le_of_not_lt h2]
    rw [hsd]
    have hed : ∀ r : Bool,
        (if (match ed with
             | some e => decide (eq.time > e)
             | none => false) = true then false else r) =
          ((match ed with
            | some e => decide (eq.time ≤ e)
            | none => true) && r) := by
      intro r
      cases ed with
      | none => simp
      | some e =>
        by_cases h3 : eq.time > e
        · rw [if_pos (by simpa using h3)]
          simp [not_le.mpr h3]
        · rw [if_neg (by simpa using h3)]
          simp [le_of_not_lt h3]
    rw [hed]
    cases hr : isInRegion eq reg with
    | false => simp
    | true =>
      simp only [Bool.not_true, Bool.true_and, Bool.and_true]
      cases hs : (term != "" && !strIncludes eq.place.toLower term.toLower) with
      | true =>
        rw [if_pos rfl]
        simp only [Bool.and_eq_true, bne_iff_ne, Bool.not_eq_true'] at hs
        simp [hs.1, hs.2]
      | false =>
        rw [if_neg (by simp [hs])]
        simp only [Bool.and_eq_false_iff, bne_eq_false_iff_eq, Bool.not_eq_false'] at hs
        rcases hs with hs | hs <;> simp [hs]

/-- C1: for every source event list and every FilterState, `applyFilters`
returns exactly the events satisfying the conjunction of the five
predicates (magnitude bounds, optional start date, optional end date,
region membership, case-insensitive substring search over `place`), and
the result is a subsequence of the source list in source order. -/
theorem applyFilters_conjunction_subsequence :
    ∀ (filters : FilterState) (l : List Event),
      applyFilters filters l =
        l.filter (fun eq => magnitudeOk filters eq && startDateOk filters eq &&
          endDateOk filters eq && regionOk filters eq && searchOk filters eq) ∧
      (applyFilters filters l).Sublist l ∧
      ∀ eq : Event,
        eq ∈ applyFilters filters l ↔
          eq ∈ l ∧ magnitudeOk filters eq = true ∧ startDateOk filters eq = true ∧
            endDateOk filters eq = true ∧ regionOk filters eq = true ∧
            searchOk filters eq = true := by
  intro filters l
  refine ⟨List.filter_congr (fun a _ => passesFilters_eq_conj filters a),
    List.filter_sublist l, ?_⟩
  intro eq
  rw [applyFilters, List.mem_filter, passesFilters_eq_conj filters eq]
  simp [Bool.and_eq_true, and_assoc]

/-- C8: filtering is idempotent — applying `applyFilters` with the same
FilterState to its own output yields an identical list. -/
theorem applyFilters_idempotent :
    ∀ (filters : FilterState) (l : List Event),
      applyFilters filters (applyFilters filters l) = applyFilters filters l := by
  intro filters l
  unfold applyFilters
  rw [List.filter_filter]
  exact List.filter_congr (fun a _ => Bool.and_self (passesFilters filters a))

/-- C10: an event whose magnitude is `null` is compared by the client as
the number 0 (JavaScript coercion), so it fails the magnitude clause and
is excluded from the filtered list whenever `minMagnitude > 0`, in
particular under the default FilterState with `minMagnitude` 4.5. -/
theorem null_magnitude_excluded :
    (∀ (filters : FilterState) (eq : Event), eq.magnitude = none →
        0 < filters.minMagnitude → passesFilters filters eq = false) ∧
    (∀ (filters : FilterState) (l : List Event) (eq : Event), eq.magnitude = none →
        0 < filters.minMagnitude → eq ∉ applyFilters filters l) ∧
    (∀ (l : List Event) (eq : Event), eq.magnitude = none →
        eq ∉ applyFilters defaultFilters l) := by
  have base : ∀ (filters : FilterState) (eq : Event), eq.magnitude = none →
      0 < filters.minMagnitude → passesFilters filters eq = false := by
    intro filters eq hm hmin
    have hz : jsNum eq.magnitude = 0 := by rw [hm]; rfl
    unfold passesFilters
    rw [if_pos (Or.inl (by rw [hz]; exact hmin))]
  have notMem : ∀ (filters : FilterState) (l : List Event) (eq : Event),
      eq.magnitude = none → 0 < filters.minMagnitude →
      eq ∉ applyFilters filters l := by
    intro filters l eq hm hmin hmem
    have hp := (List.mem_filter.mp hmem).2
    rw [base filters eq hm hmin] at hp
    exact Bool.false_ne_true hp
  exact ⟨base, notMem,
    fun l eq hm => notMem defaultFilters l eq hm (by norm_num [defaultFilters])⟩

/-- Witness for C10 at a concrete input: the null-magnitude probe event is
dropped by the default filters even from a list containing it. -/
theorem null_magnitude_excluded_witness :
    mkPoint 0 0 ∉ applyFilters defaultFilters [mkPoint 0 0] :=
  null_magnitude_excluded.2.2 [mkPoint 0 0] (mkPoint 0 0) rfl

/-- C4: `getMagnitudeColor` is the five-bucket step function (≥7 red,
≥6 orange-red, ≥5 dark-orange, ≥4 gold, else light-green) and
`getMagnitudeSize` is `max(0.15, magnitude * 0.15)`; both are pure
functions of magnitude and monotone across the breakpoints (colour via
its severity rank); magnitude 6.2 yields colour `#ff4500` and size
0.93. -/
theorem magnitude_color_size_spec :
    (∀ m : ℚ, 7 ≤ m → getMagnitudeColor m = "#ff0000") ∧
    (∀ m : ℚ, 6 ≤ m → m < 7 → getMagnitudeColor m = "#ff4500") ∧
    (∀ m : ℚ, 5 ≤ m → m < 6 → getMagnitudeColor m = "#ff8c00") ∧
    (∀ m : ℚ, 4 ≤ m → m < 5 → getMagnitudeColor m = "#ffd700") ∧
    (∀ m : ℚ, m < 4 → getMagnitudeColor m = "#90ee90") ∧
    (∀ m : ℚ, getMagnitudeSize m = max (15/100) (m * (15/100))) ∧
    (∀ a b : ℚ, a ≤ b →
        colorRank (getMagnitudeColor a) ≤ colorRank (getMagnitudeColor b)) ∧
    (∀ a b : ℚ, a ≤ b → getMagnitudeSize a ≤ getMagnitudeSize b) ∧
    getMagnitudeColor (62/10) = "#ff4500" ∧
    getMagnitudeSize (62/10) = 93/100 := by
  refine ⟨?_, ?_, ?_, ?_, ?_, fun m => rfl, ?_, ?_, by norm_num [getMagnitudeColor],
    by norm_num [getMagnitudeSize]⟩
  · intro m h
    unfold getMagnitudeColor
    split_ifs <;> first | rfl | linarith
  · intro m h h'
    unfold getMagnitudeColor
    split_ifs <;> first | rfl | linarith
  · intro m h h'
    unfold getMagnitudeColor
    split_ifs <;> first | rfl | linarith
  · intro m h h'
    unfold getMagnitudeColor
    split_ifs <;> first | rfl | linarith
  · intro m h
    unfold getMagnitudeColor
    split_ifs <;> first | rfl | linarith
  · intro a b hab
    unfold getMagnitudeColor
    split_ifs <;> first | decide | linarith
  · intro a b hab
    unfold getMagnitudeSize
    exact max_le_max le_rfl (by nlinarith)

/-- Witness for C4 at concrete inputs: magnitude 8 is red, and size is
monotone from 5 to 8. -/
theorem magnitude_color_size_spec_witness :
    getMagnitudeColor 8 = "#ff0000" ∧ getMagnitudeSize 5 ≤ getMagnitudeSize 8 := by
  obtain ⟨h1, -, -, -, -, -, -, h8, -, -⟩ := magnitude_color_size_spec
  exact ⟨h1 8 (by norm_num), h8 5 8 (by norm_num)⟩

/-- C5: the region predicate for `all` accepts every event; `americas`
holds exactly when lng ∈ [-180, -30], so the point lat 0 / lng 100 fails
it; and each named region other than `all` excludes at least one concrete
point outside its declared interval. -/
theorem region_predicate_spec :
    (∀ eq : Event, isInRegion eq Region.all = true) ∧
    (∀ eq : Event,
        isInRegion eq Region.americas = true ↔ -180 ≤ eq.lng ∧ eq.lng ≤ -30) ∧
    isInRegion (mkPoint 0 100) Region.americas = false ∧
    isInRegion (mkPoint 0 0) Region.pacificRing = false ∧
    isInRegion (mkPoint 0 0) Region.asiaPacific = false ∧
    isInRegion (mkPoint 0 100) Region.europeAfrica = false ∧
    isInRegion (mkPoint 0 100) Region.atlantic = false := by
  refine ⟨fun eq => rfl, ?_, by decide, by decide, by decide, by decide, by decide⟩
  intro eq
  simp [isInRegion, decide_eq_true_eq, ge_iff_le]

/-- C9: for in-range longitudes (-180 ≤ lng ≤ 180) the `pacific-ring`
predicate is equivalent to `120 ≤ lng ∨ lng ≤ -100`: its latitude-bounded
third sub-condition is subsumed by the first two, so latitude never
affects membership. -/
theorem pacificRing_simplification :
    ∀ lat lng : ℚ, -180 ≤ lng → lng ≤ 180 →
      (isInRegion (mkPoint lat lng) Region.pacificRing = true ↔
        120 ≤ lng ∨ lng ≤ -100) ∧
      ∀ lat₂ : ℚ,
        isInRegion (mkPoint lat lng) Region.pacificRing =
          isInRegion (mkPoint lat₂ lng) Region.pacificRing := by
  intro lat lng h1 h2
  have key : ∀ la : ℚ,
      isInRegion (mkPoint la lng) Region.pacificRing = true ↔
        120 ≤ lng ∨ lng ≤ -100 := by
    intro la
    simp only [isInRegion, mkPoint, Bool.or_eq_true, Bool.and_eq_true,
      decide_eq_true_eq, ge_iff_le, reduceCtorEq, if_false]
    tauto
  exact ⟨key lat, fun lat₂ => Bool.eq_iff_iff.mpr ((key lat).trans (key lat₂).symm)⟩

/-- Witness for C9 at a concrete input: lat 5 / lng 130 is in range and
belongs to the pacific-ring region. -/
theorem pacificRing_simplification_witness :
    isInRegion (mkPoint 5 130) Region.pacificRing = true :=
  ((pacificRing_simplification 5 130 (by norm_num) (by norm_num)).1).mpr
    (Or.inl (by norm_num))

/-- C2: the proxy emits exactly one event per feature in input order
(`processFeatures` is the map of `processFeature`), an absent feature list
yields the empty result, and each emitted event takes lat/lng/depth from
`coordinates[1]/[0]/[2]`, the remaining fields from `properties`, and
`timeString` as the ISO-8601 rendering of `time` (checked on the spec's
example timestamp). -/
theorem processFeatures_spec :
    processFeatures none = [] ∧
    (∀ fs : List Feature,
        processFeatures (some fs) = fs.map processFeature ∧
        (processFeatures (some fs)).length = fs.length) ∧
    (∀ (f : Feature) (lng lat depth : ℚ) (rest : List ℚ),
        f.coordinates = lng :: lat :: depth :: rest →
        (processFeature f).lat = lat ∧ (processFeature f).lng = lng ∧
          (processFeature f).depth = depth) ∧
    (∀ f : Feature,
        (processFeature f).id = f.id ∧
        (processFeature f).magnitude = f.properties.mag ∧
        (processFeature f).place = f.properties.place ∧
        (processFeature f).time = f.properties.time ∧
        (processFeature f).timeString = toIsoString f.properties.time ∧
        (processFeature f).title = f.properties.title ∧
        (processFeature f).url = f.properties.url ∧
        (processFeature f).tsunami = f.properties.tsunami ∧
        (processFeature f).type' = f.properties.type' ∧
        (processFeature f).status = f.properties.status ∧
        (processFeature f).updated = f.properties.updated) ∧
    toIsoString 1700000000000 = "2023-11-14T22:13:20.000Z" := by
  refine ⟨rfl, fun fs => ⟨rfl, by simp [processFeatures]⟩, ?_, ?_, by decide⟩
  · intro f lng lat depth rest h
    refine ⟨?_, ?_, ?_⟩ <;> simp [processFeature, h]
  · intro f
    exact ⟨rfl, rfl, rfl, rfl, rfl, rfl, rfl, rfl, rfl, rfl, rfl⟩

/-- Witness for C2 on the spec's Tokyo example feature: coordinates
`[139.7, 35.7, 10]` yield lat 35.7, lng 139.7, depth 10. -/
theorem processFeatures_spec_witness :
    (processFeature tokyoFeature).lat = 357/10 ∧
    (processFeature tokyoFeature).lng = 1397/10 ∧
    (processFeature tokyoFeature).depth = 10 :=
  processFeatures_spec.2.2.1 tokyoFeature (1397/10) (357/10) 10 [] rfl

/-- C3: on a non-success upstream HTTP status the proxy answers with
HTTP 500, the fixed upstream-fetch error kind, and the status message,
and never with a success payload (no earthquake list). -/
theorem upstream_failure_spec :
    ∀ response : UpstreamResponse, responseOk response = false →
      handleRequest response =
        ProxyResult.err 500 "Failed to fetch earthquake data"
          ("USGS API responded with status " ++ toString response.status) ∧
      ∀ (c : ℕ) (l : List Event) (g : Option ℤ) (u t : Option String)
        (mc : Option ℤ), handleRequest response ≠ ProxyResult.ok c l g u t mc := by
  intro response h
  have herr : handleRequest response =
      ProxyResult.err 500 "Failed to fetch earthquake data"
        ("USGS API responded with status " ++ toString response.status) := by
    unfold handleRequest
    rw [h]
    rfl
  refine ⟨herr, ?_⟩
  intro c l g u t mc hok
  rw [herr] at hok
  exact ProxyResult.noConfusion hok

/-- Witness for C3: upstream status 503 produces the 500 error response
with the status message. -/
theorem upstream_failure_spec_witness :
    handleRequest failing503 =
      ProxyResult.err 500 "Failed to fetch earthquake data"
        "USGS API responded with status 503" := by
  rw [(upstream_failure_spec failing503 (by decide)).1]
  decide

/-- C6: over every sequence of start/tick/stop transitions the animation
index never exceeds the filtered list length; a tick that reaches the
length resets to `Stopped(0)`, as does an explicit stop; and while
animating the rendered set is the filtered list's prefix of length
`animationIndex` (the full filtered list otherwise). -/
theorem animation_state_machine_spec :
    (∀ (len : ℕ) (acts : List AnimAction),
        (runAnim len acts).animationIndex ≤ len) ∧
    (∀ (len : ℕ) (s : AnimState), len ≤ s.animationIndex + 1 →
        animStep len s AnimAction.tick = ⟨false, 0⟩) ∧
    (∀ (len : ℕ) (s : AnimState), animStep len s AnimAction.stop = ⟨false, 0⟩) ∧
    (∀ (filtered : List Event) (s : AnimState), s.isAnimating = true →
        displayEarthquakes filtered s = filtered.take s.animationIndex) ∧
    (∀ (filtered : List Event) (s : AnimState), s.isAnimating = false →
        displayEarthquakes filtered s = filtered) := by
  have preserve : ∀ (len : ℕ) (s : AnimState) (a : AnimAction),
      s.animationIndex ≤ len → (animStep len s a).animationIndex ≤ len := by
    intro len s a h
    cases a with
    | start =>
      unfold animStep
      split_ifs
      · exact h
      · exact Nat.zero_le _
    | tick =>
      unfold animStep
      dsimp only
      split_ifs with h2
      · exact Nat.zero_le _
      · exact Nat.le_of_lt (Nat.lt_of_not_le h2)
    | stop => exact Nat.zero_le _
  have aux : ∀ (len : ℕ) (acts : List AnimAction) (s : AnimState),
      s.animationIndex ≤ len →
      (acts.foldl (animStep len) s).animationIndex ≤ len := by
    intro len acts
    induction acts with
    | nil => intro s h; exact h
    | cons a t ih => intro s h; exact ih _ (preserve len s a h)
  refine ⟨fun len acts => aux len acts animInit (Nat.zero_le _), ?_, ?_, ?_, ?_⟩
  · intro len s h
    unfold animStep
    dsimp only
    rw [if_pos h]
  · intro len s
    rfl
  · intro filtered s h
    unfold displayEarthquakes
    rw [if_pos h]
  · intro filtered s h
    unfold displayEarthquakes
    rw [if_neg (by simp [h])]

/-- Witness for C6 at concrete inputs: from a running state at index 2
with a filtered list of length 3, one tick resets to stopped at 0, and
the rendered set while running is the prefix of length 2. -/
theorem animation_state_machine_spec_witness :
    animStep 3 ⟨true, 2⟩ AnimAction.tick = ⟨false, 0⟩ ∧
    displayEarthquakes [mkPoint 0 0, mkPoint 1 1, mkPoint 2 2] ⟨true, 2⟩ =
      [mkPoint 0 0, mkPoint 1 1] := by
  refine ⟨animation_state_machine_spec.2.1 3 ⟨true, 2⟩ (by norm_num), ?_⟩
  rw [animation_state_machine_spec.2.2.2.1 [mkPoint 0 0, mkPoint 1 1, mkPoint 2 2]
    ⟨true, 2⟩ rfl]
  rfl

/-- C7: for every incoming request the proxy builds a single upstream
query in which format defaults to `geojson`, minmagnitude to `4.5`, limit
to `1000`, `orderby=time` is always sent, starttime defaults to now minus
30 days rendered `YYYY-MM-DD` when absent, and endtime is omitted when
absent (checked fully on the all-defaults query, plus the spec's example
date rendering). -/
theorem buildParams_spec :
    (∀ nowMs : ℤ, buildParams emptyQuery nowMs =
        [("format", "geojson"), ("minmagnitude", "4.5"), ("limit", "1000"),
         ("orderby", "time"),
         ("starttime", isoDateString (nowMs - 30 * 86400000))]) ∧
    (∀ (q : ReqQuery) (nowMs : ℤ), ("orderby", "time") ∈ buildParams q nowMs) ∧
    (∀ (q : ReqQuery) (nowMs : ℤ), q.minmagnitude = none →
        ("minmagnitude", "4.5") ∈ buildParams q nowMs) ∧
    (∀ (q : ReqQuery) (nowMs : ℤ), q.limit = none →
        ("limit", "1000") ∈ buildParams q nowMs) ∧
    (∀ (q : ReqQuery) (nowMs : ℤ), q.format = none →
        ("format", "geojson") ∈ buildParams q nowMs) ∧
    (∀ (q : ReqQuery) (nowMs : ℤ), q.starttime = none →
        ("starttime", isoDateString (nowMs - 30 * 86400000)) ∈ buildParams q nowMs) ∧
    (∀ (q : ReqQuery) (nowMs : ℤ) (v : String), q.endtime = none →
        ("endtime", v) ∉ buildParams q nowMs) ∧
    isoDateString (1700000000000 - 30 * 86400000) = "2023-10-15" := by
  refine ⟨fun nowMs => rfl, ?_, ?_, ?_, ?_, ?_, ?_, by decide⟩
  · intro q nowMs
    simp [buildParams]
  · intro q nowMs h
    simp [buildParams, h]
  · intro q nowMs h
    simp [buildParams, h]
  · intro q nowMs h
    simp [buildParams, h]
  · intro q nowMs h
    simp [buildParams, h]
  · intro q nowMs v h
    cases hs : q.starttime <;> simp [buildParams, h, hs]

/-- Witness for C7 at concrete inputs: the all-defaults query at the
spec's example instant contains `orderby=time` and carries no endtime. -/
theorem buildParams_spec_witness :
    ("orderby", "time") ∈ buildParams emptyQuery 1700000000000 ∧
    ("endtime", "2024-01-01") ∉ buildParams emptyQuery 1700000000000 :=
  ⟨buildParams_spec.2.1 emptyQuery 1700000000000,
    buildParams_spec.2.2.2.2.2.2.1 emptyQuery 1700000000000 "2024-01-01" rfl⟩

end VisualGlobe
